import Mathlib

/-!
Verification development for the MovieClip timeline playback engine
(`PIXI.animate.MovieClip`).

The JavaScript source is shallowly embedded as follows:

* A display node (`MovieClip` instance) is a `Node` record holding the
  constructor-initialised fields.  Object identity / reference semantics is
  modelled with a heap: a `Store` maps a `NodeId` to its current `Node`
  record; the display-tree linkage (`parent` back-reference, `children`
  list) lives inside the records.
* JS numbers that can hold the `NaN` sentinel (`_prevPos`, and the
  `startFrame` argument of `_setTimelinePosition`) are modelled by `JsNum`;
  all frame positions that the claims exercise are integers, so ordinary
  frame values are `Int` and elapsed time is `Rat`.
* Calls into external collaborators (`Tween.setPosition`, `addChild`,
  `removeChild`, frame-action callbacks) are recorded as an `Effect` list,
  in execution order; callbacks are opaque identifiers.  `addChild` /
  `removeChild` additionally update the tree linkage in the store with the
  standard container semantics (a child is detached from its previous
  parent on attach).
* The recursion of `_setTimelinePosition` into synched children's
  `_updateTimeline` descends the display tree; it is given a `fuel`
  parameter bounding the recursion depth (the theorems either hold for
  every fuel or use a depth that is evidently sufficient for the concrete
  tree at hand).
-/

/-- Node identifiers stand for JS object references. -/
abbrev NodeId := Nat

/-- A JS number that may be the `NaN` sentinel (used for `_prevPos` and for
the `startFrame` argument of the positional pass).  All comparisons with
`NaN` are false, as in JS. -/
inductive JsNum where
  | nan : JsNum
  | num (n : Int) : JsNum
deriving DecidableEq

/-- JS `x == c` for a possibly-NaN `x` against an integer. -/
def JsNum.eqNum : JsNum → Int → Bool
  | JsNum.nan, _ => false
  | JsNum.num m, c => m == c

/-- JS `x < 0` for a possibly-NaN `x` (`NaN < 0` is false). -/
def JsNum.ltZero : JsNum → Bool
  | JsNum.nan => false
  | JsNum.num m => m < 0

/-- One tween segment of the external `Timeline` collaborator: the engine
only reads its `startFrame`/`endFrame` bounds and calls `setPosition`. -/
structure Tween where
  startFrame : Int
  endFrame : Int
deriving DecidableEq

/-- An element of `_timelines`: the ordered tween segments for one target. -/
structure Timeline where
  target : NodeId
  tweens : List Tween
deriving DecidableEq

/-- An element of `_timedChildTimelines`: a per-frame presence flag array
with a `target` property. -/
structure TimedChild where
  target : NodeId
  frames : List Bool
deriving DecidableEq

/-- The observable collaborator calls made during a resolution pass, in
execution order. -/
inductive Effect where
  | tweenSet (target : NodeId) (frame : Int)
  | addChild (target : NodeId)
  | removeChild (target : NodeId)
  | action (callback : Nat)
deriving DecidableEq

/-- The state of one MovieClip.  Field names follow the source
(`_synchOffset` → `synchOffset`, `_prevPos` → `prevPos`, `_t` → `t`,
`_totalFrames` → `totalFrames`, `_labelDict` → `labelDict`).  `mode` keeps
the source's integer encoding: 0 = INDEPENDENT, 1 = SINGLE_FRAME,
2 = SYNCHED.  The ticker-subscription glue (`selfAdvance`, `_duration`,
`advance`) is not needed by any claim and is not modelled. -/
structure Node where
  mode : Nat
  startPosition : Int
  loop : Bool
  currentFrame : Int
  labelDict : List (String × Int)
  paused : Bool
  actionsEnabled : Bool
  autoReset : Bool
  synchOffset : Int
  prevPos : JsNum
  t : Rat
  framerate : Rat
  totalFrames : Int
  timelines : List Timeline
  timedChildren : List TimedChild
  actions : List (Option (List Nat))
  children : List NodeId
  parent : Option NodeId
  parentStartPosition : Int

/-- The constructor's default state (`new MovieClip()` with no options). -/
def baseNode : Node :=
  { mode := 0, startPosition := 0, loop := true, currentFrame := 0,
    labelDict := [], paused := false, actionsEnabled := true,
    autoReset := true, synchOffset := 0, prevPos := JsNum.num (-1),
    t := 0, framerate := 0, totalFrames := 0, timelines := [],
    timedChildren := [], actions := [], children := [], parent := none,
    parentStartPosition := 0 }

/-- The heap of live MovieClip objects. -/
abbrev Store := NodeId → Node

/-- Mutate one object of the heap. -/
def updNode (s : Store) (i : NodeId) (f : Node → Node) : Store :=
  fun j => if j = i then f (s j) else s j

/-- JS array read `frames[i]` of a boolean presence array: out-of-range or
negative indices give `undefined`, which is falsy. -/
def boolAt (frames : List Bool) (i : Int) : Bool :=
  if 0 ≤ i ∧ i < frames.length then (frames.get? i.toNat).getD false else false

/-- JS array read `actions[i]`: holes and out-of-range reads give
`undefined`, i.e. no action list. -/
def actGet (actions : List (Option (List Nat))) (i : Int) : Option (List Nat) :=
  if 0 ≤ i ∧ i < actions.length then (actions.get? i.toNat).getD none else none

/-- `Container.addChild`: detach the target from its previous parent (if
any), append it to `self`'s children, set its parent back-reference. -/
def addChildStore (s : Store) (self target : NodeId) : Store :=
  let s1 := match (s target).parent with
    | some p => updNode s p (fun n => { n with children := n.children.filter (fun c => !(c == target)) })
    | none => s
  let s2 := updNode s1 self (fun n => { n with children := n.children ++ [target] })
  updNode s2 target (fun n => { n with parent := some self })

/-- `Container.removeChild` for a current child. -/
def removeChildStore (s : Store) (self target : NodeId) : Store :=
  let s1 := updNode s self (fun n => { n with children := n.children.filter (fun c => !(c == target)) })
  updNode s1 target (fun n => { n with parent := none })

/-- `_reset`: `_prevPos = -1; _t = 0; currentFrame = 0`. -/
def resetNode (s : Store) (i : NodeId) : Store :=
  updNode s i (fun n => { n with prevPos := JsNum.num (-1), t := 0, currentFrame := 0 })

/-- The synched-mode frame derivation at the top of `_updateTimeline`:
`currentFrame = startPosition + (mode == SINGLE_FRAME ? 0 : _synchOffset)`,
then `currentFrame %= _totalFrames` when it reached `_totalFrames`.
`Int.tmod` matches the sign behaviour of JS `%`.  (JS `%` by zero yields
`NaN`; a SYNCHED node with `totalFrames = 0` is outside every claim and
`Int.tmod cf 0 = cf` is used for that corner.) -/
def deriveSynched (n : Node) : Int :=
  let cf := n.startPosition + (if n.mode == 1 then 0 else n.synchOffset)
  if cf ≥ n.totalFrames then Int.tmod cf n.totalFrames else cf

/-- The frame a resolution pass will resolve to, per the mode dispatch of
`_updateTimeline` (INDEPENDENT keeps `currentFrame`). -/
def deriveFrame (n : Node) : Int :=
  if n.mode == 0 then n.currentFrame else deriveSynched n

/-- The body of the action-firing `for` loop of `_setTimelinePosition`,
with the loop variables `i`, `length`, `needsLoop` made explicit.  The
`gas` argument is a pre-computed upper bound on the number of iterations
(the loop itself terminates because `needsLoop` can reset `i`/`length` at
most once); the caller supplies enough gas, see `fireActions`. -/
def fireLoop (actions : List (Option (List Nat))) (currentFrame : Int) :
    Nat → Int → Int → Bool → List Nat
  | 0, _, _, _ => []
  | Nat.succ gas, i, len, needsLoop =>
    if i < len then
      let fired := (actGet actions i).getD []
      if needsLoop && (i == len - 1) then
        -- `i = 0; length = currentFrame + 1; needsLoop = false;` then `++i`
        fired ++ fireLoop actions currentFrame gas (0 + 1) (currentFrame + 1) false
      else
        fired ++ fireLoop actions currentFrame gas (i + 1) len needsLoop
    else []

/-- The action-firing block of `_setTimelinePosition` (source lines
918-947).  Note the source's quirk embedded faithfully here: the
wraparound branch assigns `length = actions.length` and sets `needsLoop`,
but the `for` loop's init clause immediately reassigns
`length = Math.min(currentFrame + 1, actions.length)`, so only `needsLoop`
survives the `if`/`else`.  A `NaN` start frame (the first resolution after
a seek from the freshly-constructed state) makes both the wraparound test
and the loop guard false, firing nothing.  The gas bound covers the first
leg (`len - startFrame` steps) plus the post-reset leg (at most
`currentFrame + 1` steps). -/
def fireActions (actions : List (Option (List Nat))) (startFrame : JsNum)
    (currentFrame : Int) : List Nat :=
  match startFrame with
  | JsNum.nan => []
  | JsNum.num sf =>
    let len : Int := min (currentFrame + 1) (actions.length : Int)
    fireLoop actions currentFrame
      ((len - sf).toNat + (currentFrame + 1).toNat + 1) sf len
      (decide (currentFrame < sf))

/-- The tween section of `_setTimelinePosition`: the source iterates
`_timelines` from the last to the first (this function is applied to the
reversed list), and for each timeline scans its tween segments in order,
calling `setPosition(currentFrame)` on the first segment whose
`[startFrame, endFrame]` interval contains `currentFrame`, then breaks. -/
def tweenPass (currentFrame : Int) : List Timeline → List Effect
  | [] => []
  | tl :: rest =>
    match tl.tweens.find? (fun tw =>
        decide (tw.startFrame ≤ currentFrame) && decide (currentFrame ≤ tw.endFrame)) with
    | some _ => Effect.tweenSet tl.target currentFrame :: tweenPass currentFrame rest
    | none => tweenPass currentFrame rest

/-- The timed-child presence section of `_setTimelinePosition`: children
whose presence flag at `currentFrame` is set are attached (independent
auto-reset children being reset first), present children whose flag is
clear are detached. -/
def presencePass (self : NodeId) (currentFrame : Int) :
    Store → List TimedChild → Store × List Effect
  | s, [] => (s, [])
  | s, tc :: rest =>
    let shouldBeChild := boolAt tc.frames currentFrame
    if shouldBeChild && !((s tc.target).parent == some self) then
      let s1 := addChildStore s self tc.target
      let s2 := if (s1 tc.target).mode == 0 && (s1 tc.target).autoReset then
          resetNode s1 tc.target else s1
      let r := presencePass self currentFrame s2 rest
      (r.1, Effect.addChild tc.target :: r.2)
    else if !shouldBeChild && ((s tc.target).parent == some self) then
      let s1 := removeChildStore s self tc.target
      let r := presencePass self currentFrame s1 rest
      (r.1, Effect.removeChild tc.target :: r.2)
    else
      presencePass self currentFrame s rest

/-- `_updateTimeline`, parameterised by the positional pass `stp` it should
invoke (`_setTimelinePosition` at the appropriate recursion depth):
derive the frame from the mode, return if the frame equals `_prevPos`,
otherwise run the positional pass with `startFrame = _prevPos < 0 ? 0 :
_prevPos` and actions suppressed for non-INDEPENDENT nodes, finally record
`_prevPos = currentFrame`. -/
def updateTimelineWith
    (stp : Store → NodeId → JsNum → Int → Bool → Store × List Effect)
    (s : Store) (self : NodeId) : Store × List Effect :=
  let synched := !((s self).mode == 0)
  let s1 := if synched then
      updNode s self (fun n => { n with currentFrame := deriveSynched n }) else s
  let n := s1 self
  if n.prevPos.eqNum n.currentFrame then (s1, [])
  else
    let startFrame := if n.prevPos.ltZero then JsNum.num 0 else n.prevPos
    let r := stp s1 self startFrame n.currentFrame (if synched then false else n.actionsEnabled)
    (updNode r.1 self (fun m => { m with prevPos := JsNum.num m.currentFrame }), r.2)

/-- The synchronised-children section of `_setTimelinePosition`: for each
attached child in SYNCHED mode, set
`child._synchOffset = currentFrame - child.parentStartPosition` and run the
child's `_updateTimeline`. -/
def syncPass (stp : Store → NodeId → JsNum → Int → Bool → Store × List Effect)
    (currentFrame : Int) : Store → List NodeId → Store × List Effect
  | s, [] => (s, [])
  | s, child :: rest =>
    if (s child).mode == 2 then
      let s1 := updNode s child (fun c =>
        { c with synchOffset := currentFrame - c.parentStartPosition })
      let r1 := updateTimelineWith stp s1 child
      let r2 := syncPass stp currentFrame r1.1 rest
      (r2.1, r1.2 ++ r2.2)
    else syncPass stp currentFrame s rest

/-- `_setTimelinePosition(startFrame, currentFrame, doActions)`: tween
application, then timed-child presence, then recursive synchronisation of
attached SYNCHED children, then (when `doActions`) the action loop.  The
`fuel` bounds the recursion depth into children. -/
def setTimelinePosition : Nat → Store → NodeId → JsNum → Int → Bool → Store × List Effect
  | 0, s, _, _, _, _ => (s, [])
  | Nat.succ fuel, s, self, startFrame, currentFrame, doActions =>
    let tweenEffects := tweenPass currentFrame (s self).timelines.reverse
    let rp := presencePass self currentFrame s (s self).timedChildren
    let rs := syncPass (setTimelinePosition fuel) currentFrame rp.1 (rp.1 self).children
    let actionEffects := if doActions then
        (fireActions (rs.1 self).actions startFrame currentFrame).map Effect.action
      else []
    (rs.1, tweenEffects ++ rp.2 ++ (rs.2 ++ actionEffects))

/-- `_updateTimeline` proper. -/
def updateTimeline (fuel : Nat) (s : Store) (self : NodeId) : Store × List Effect :=
  updateTimelineWith (setTimelinePosition fuel) s self

/-- JS object lookup in `_labelDict`. -/
def lookupLabel (d : List (String × Int)) (key : String) : Option Int :=
  (d.find? (fun p => p.1 == key)).map (fun p => p.2)

/-- `_goto(positionOrLabel)`: resolve a label to a frame (returning
silently when unknown), arm the `NaN` sentinel when `_prevPos` is still
`-1`, set `currentFrame` and `_t`, and run `_updateTimeline`. -/
def goto (fuel : Nat) (s : Store) (self : NodeId)
    (positionOrLabel : String ⊕ Int) : Store × List Effect :=
  let pos : Option Int := match positionOrLabel with
    | Sum.inl lbl => lookupLabel (s self).labelDict lbl
    | Sum.inr p => some p
  match pos with
  | none => (s, [])
  | some p =>
    let s1 := if (s self).prevPos.eqNum (-1) then
        updNode s self (fun n => { n with prevPos := JsNum.nan }) else s
    let s2 := updNode s1 self (fun n =>
      { n with currentFrame := p,
               t := if n.framerate > 0 then (p : Rat) / n.framerate else 0 })
    updateTimeline fuel s2 self

/-- `gotoAndPlay`: clear `paused`, then `_goto`. -/
def gotoAndPlay (fuel : Nat) (s : Store) (self : NodeId)
    (positionOrLabel : String ⊕ Int) : Store × List Effect :=
  goto fuel (updNode s self (fun n => { n with paused := false })) self positionOrLabel

/-- `gotoAndStop`: set `paused`, then `_goto`. -/
def gotoAndStop (fuel : Nat) (s : Store) (self : NodeId)
    (positionOrLabel : String ⊕ Int) : Store × List Effect :=
  goto fuel (updNode s self (fun n => { n with paused := true })) self positionOrLabel

/-- `addAction(callback, startFrame)`: grow the sparse `_actions` array to
`startFrame + 1` when too short, raise `_totalFrames` to `startFrame` when
smaller (note: to `startFrame`, not `startFrame + 1`), and append the
callback to the list at `startFrame`. -/
def addAction (n : Node) (callback : Nat) (startFrame : Nat) : Node :=
  let actions := if n.actions.length ≤ startFrame then
      n.actions ++ List.replicate (startFrame + 1 - n.actions.length) none
    else n.actions
  let totalFrames := if n.totalFrames < (startFrame : Int) then (startFrame : Int)
    else n.totalFrames
  let actions := match (actions.get? startFrame).getD none with
    | some l => actions.set startFrame (some (l ++ [callback]))
    | none => actions.set startFrame (some [callback])
  { n with actions := actions, totalFrames := totalFrames }

/-- Index of the last `_timedChildTimelines` entry for a target (the source
scans from the end of the array). -/
def findFromEnd (l : List TimedChild) (target : NodeId) : Option Nat :=
  match l.reverse.findIdx? (fun tc => tc.target == target) with
  | none => none
  | some k => some (l.length - 1 - k)

/-- ES6 `Array.prototype.fill(true, lo, hi)` on a boolean array (writes are
clamped to the existing length). -/
def fillTrue (l : List Bool) (lo hi : Int) : List Bool :=
  l.mapIdx (fun i b => if lo ≤ (i : Int) ∧ (i : Int) < hi then true else b)

/-- `addTimedChild(instance, startFrame, duration)`: apply the null/`< 1`
defaulting of the arguments, record `parentStartPosition` on SYNCHED
targets, find or create the presence timeline, grow it (gaps padded with
`false`) and fill `[startFrame, startFrame + duration)` with `true`, raise
`_totalFrames`, and immediately run
`_setTimelinePosition(startFrame, currentFrame, true)` — with actions
force-enabled.  The optional `keyframes` argument (which would forward to
`addTween` and the external `Timeline` collaborator) is never supplied by
any claim and is not modelled. -/
def addTimedChild (fuel : Nat) (s : Store) (self target : NodeId)
    (startFrameArg durationArg : Option Int) : Store × List Effect :=
  let startFrame := startFrameArg.getD 0
  let n0 := s self
  let duration := match durationArg with
    | none => if n0.totalFrames ≠ 0 then n0.totalFrames else 1
    | some d => if d < 1 then (if n0.totalFrames ≠ 0 then n0.totalFrames else 1) else d
  let s := if (s target).mode == 2 then
      updNode s target (fun c => { c with parentStartPosition := startFrame }) else s
  let n := s self
  let tcl : List TimedChild × Nat := match findFromEnd n.timedChildren target with
    | some k => (n.timedChildren, k)
    | none => (n.timedChildren ++ [{ target := target, frames := [] }], n.timedChildren.length)
  let tl := (tcl.1.get? tcl.2).getD { target := target, frames := [] }
  let oldLength := tl.frames.length
  let frames := if (oldLength : Int) < startFrame + duration then
      tl.frames ++ List.replicate (startFrame + duration - oldLength).toNat false
    else tl.frames
  let frames := fillTrue frames startFrame (startFrame + duration)
  let timedChildren := tcl.1.set tcl.2 { target := target, frames := frames }
  let totalFrames := if n.totalFrames < startFrame + duration then startFrame + duration
    else n.totalFrames
  let s := updNode s self (fun m =>
    { m with timedChildren := timedChildren, totalFrames := totalFrames })
  setTimelinePosition fuel s self (JsNum.num startFrame) ((s self).currentFrame) true

/-!
## The compact keyframe-string decoder (`addKeyframes`, string branch)

`addKeyframes` converts a serialized keyframe string into a map from
frame-index tokens to per-frame property records, then feeds each record to
`addTween`.  The decode loop is embedded as a character-step function so
both its whole-string behaviour and its single-character behaviour can be
stated.  JS object reference semantics (`result[buffer] = frame` stores a
live reference at the first code letter of a record, later `parseValue`
calls mutate it) is modelled by committing the record's accumulated
content when the record is abandoned (at a space, or at end of input —
where the still-pending `<code>` and buffer are dropped, since the source
runs no final `parseValue`).
-/

/-- Canonicalise a decimal rational `n / 10 ^ k` by stripping factors of
ten, so that two representations are equal exactly when the numbers they
denote are equal. -/
def canonDec : Int → Nat → Int × Nat
  | n, 0 => (n, 0)
  | n, Nat.succ k => if n % 10 == 0 then canonDec (n / 10) k else (n, Nat.succ k)

/-- A decoded keyframe property value.  A parsed decimal number is kept as
a canonical `(mantissa, exponent)` pair denoting `mantissa / 10 ^
exponent` (`none` is `NaN`); on canonical pairs, representation equality
coincides with numeric equality of the parsed values. -/
inductive KVal where
  | num (v : Option (Int × Nat))
  | str (s : String)
  | boolv (b : Bool)
  | nums (vs : List (Option (Int × Nat)))
deriving DecidableEq

/-- JS property assignment on an object represented as an ordered
association list: overwrite in place when the key exists, else append. -/
def jsAssocSet {α : Type} (l : List (String × α)) (key : String) (v : α) :
    List (String × α) :=
  if l.any (fun p => p.1 == key) then
    l.map (fun p => if p.1 == key then (key, v) else p)
  else l ++ [(key, v)]

/-- Decimal value of a digit run. -/
def digitsVal (cs : List Char) : Nat :=
  cs.foldl (fun acc c => acc * 10 + (c.toNat - 48)) 0

/-- JS `parseFloat`: longest numeric prefix (optional sign, integer part,
optional fraction), `NaN` (`none`) when no digit is found; the parsed
value `sign * (int + frac / 10 ^ digits)` is returned as a canonical
decimal pair.  Exponent notation and leading whitespace never occur in the
engine's keyframe data and are not modelled. -/
def jsParseFloat (s : String) : Option (Int × Nat) :=
  let cs := s.toList
  let signed : Int × List Char := match cs with
    | '-' :: r => (-1, r)
    | '+' :: r => (1, r)
    | _ => (1, cs)
  let intPart := signed.2.takeWhile Char.isDigit
  let rest := signed.2.dropWhile Char.isDigit
  let fracPart : List Char := match rest with
    | '.' :: r => r.takeWhile Char.isDigit
    | _ => []
  if intPart.isEmpty && fracPart.isEmpty then none
  else some (canonDec
    (signed.1 * ((digitsVal intPart : Int) * (10 : Int) ^ fracPart.length +
      (digitsVal fracPart : Int)))
    fracPart.length)

/-- JS `parseInt` with no radix argument, on the decimal strings the
visibility code uses (`NaN` is `none`; the `0x` hex-prefix form never
occurs in visibility values and is not modelled). -/
def jsParseInt (s : String) : Option Int :=
  let cs := s.toList
  let signed : Int × List Char := match cs with
    | '-' :: r => (-1, r)
    | '+' :: r => (1, r)
    | _ => (1, cs)
  let ds := signed.2.takeWhile Char.isDigit
  if ds.isEmpty then none else some (signed.1 * (digitsVal ds : Int))

/-- The decoder's code-letter table (`keysMap`).  Note: the keys are the
UPPERCASE letters, exactly as in the source. -/
def keysMap (c : Char) : Option String :=
  if c = 'X' then some "x"
  else if c = 'Y' then some "y"
  else if c = 'A' then some "sx"
  else if c = 'B' then some "sy"
  else if c = 'C' then some "kx"
  else if c = 'D' then some "ky"
  else if c = 'R' then some "r"
  else if c = 'L' then some "a"
  else if c = 'T' then some "t"
  else if c = 'F' then some "c"
  else if c = 'V' then some "v"
  else none

/-- `parseValue(frame, prop, buffer)`: `c` splits on commas and parses
floats, `t` keeps the literal, `v` coerces `parseInt` to a boolean, every
other property parses as a float.  A `null`/`undefined` `prop` falls into
the default branch and writes under the stringified key (this only ever
happens on a record that is about to be discarded). -/
def parseValue (frame : List (String × KVal)) (prop : Option String)
    (buffer : String) : List (String × KVal) :=
  match prop with
  | some "c" => jsAssocSet frame "c" (KVal.nums ((buffer.splitOn ",").map jsParseFloat))
  | some "t" => jsAssocSet frame "t" (KVal.str buffer)
  | some "v" => jsAssocSet frame "v" (KVal.boolv (match jsParseInt buffer with
      | some n => !(n == 0)
      | none => false))
  | some p => jsAssocSet frame p (KVal.num (jsParseFloat buffer))
  | none => jsAssocSet frame "null" (KVal.num (jsParseFloat buffer))

/-- The decode loop's mutable state: the accumulation `buffer`, the
`isFrameStarted` flag, the pending `prop`, the current `frame` record, the
key under which the current record was stored in `result` (meaningful when
`isFrameStarted`), and the `result` map. -/
structure DecState where
  buffer : String
  isFrameStarted : Bool
  prop : Option String
  frame : List (String × KVal)
  key : String
  result : List (String × List (String × KVal))
deriving DecidableEq

/-- The decoder's initial state. -/
def initState : DecState :=
  { buffer := "", isFrameStarted := false, prop := none, frame := [],
    key := "", result := [] }

/-- One iteration of the decode `while` loop, on the character `c`:
a recognised code letter starts the record (first time) and flushes the
pending `<code><value>` pair; a space flushes the pending pair and closes
the record; any other character is appended to the buffer. -/
def decodeStep (st : DecState) (c : Char) : DecState :=
  match keysMap c with
  | some code =>
    let st1 := if !st.isFrameStarted then
        { st with isFrameStarted := true, key := st.buffer } else st
    let st2 := match st1.prop with
      | some _ => { st1 with frame := parseValue st1.frame st1.prop st1.buffer }
      | none => st1
    { st2 with prop := some code, buffer := "" }
  | none =>
    if c == ' ' then
      let fr := parseValue st.frame st.prop st.buffer
      { buffer := "", isFrameStarted := false, prop := none, frame := [],
        key := st.key,
        result := if st.isFrameStarted then jsAssocSet st.result st.key fr
          else st.result }
    else { st with buffer := st.buffer.push c }

/-- Close the decode: a record still open at end of input is committed with
its accumulated content — the source runs no final `parseValue`, so a
pending `<code><value>` pair at end of string is dropped. -/
def decodeFinish (st : DecState) : List (String × List (String × KVal)) :=
  if st.isFrameStarted then jsAssocSet st.result st.key st.frame else st.result

/-- The string branch of `addKeyframes`: run the decode loop over the
characters and close. -/
def deserializeKeyframes (s : String) :
    List (String × List (String × KVal)) :=
  decodeFinish (s.toList.foldl decodeStep initState)

/-!
## Specification-side definitions and concrete instances
-/

/-- Specification-side description of a forward action pass: the
concatenation, in ascending frame order, of the action lists at the
`count` frames starting at `lo`. -/
def actionsInWindow (actions : List (Option (List Nat))) (lo : Int) :
    Nat → List Nat
  | 0 => []
  | Nat.succ k => (actGet actions lo).getD [] ++ actionsInWindow actions (lo + 1) k

/-- No frame-action callback occurs in an effect list. -/
def noActs (l : List Effect) : Prop := ∀ cb, Effect.action cb ∉ l

/-- C1 scenario: a looping node with `totalFrames = 5`, actions at frames
0, 3 and 4, previously resolved at frame 3, whose clock has advanced to
frame 1 (a wraparound). -/
def c1Node : Node :=
  { baseNode with totalFrames := 5, actions := [some [0], none, none, some [3], some [4]], prevPos := JsNum.num 3, currentFrame := 1 }

/-- Heap for the C1 scenario. -/
def c1Store : Store := fun _ => c1Node

/-- C2 counterexample scenario: actions at frames 0 and 1, previously
resolved at frame 0, advanced to frame 1. -/
def c2Node : Node :=
  { baseNode with totalFrames := 2, actions := [some [10], some [11]], prevPos := JsNum.num 0, currentFrame := 1 }

/-- Heap for the C2 counterexample. -/
def c2Store : Store := fun _ => c2Node

/-- Actions array used by the C2 witness. -/
def c2WitActs : List (Option (List Nat)) := [some [5], some [7]]

/-- C3 witness node: an INDEPENDENT node already resolved at frame 0. -/
def c3WitNode : Node := { baseNode with prevPos := JsNum.num 0 }

/-- Heap for the C3 witness. -/
def c3WitStore : Store := fun _ => c3WitNode

/-- C4 child: a SYNCHED child whose own `startPosition` (`sp`) differs
from the `parentStartPosition` (`psp`) recorded by `addTimedChild`. -/
def c4Child (sp psp : Int) : Node :=
  { baseNode with mode := 2, startPosition := sp, parentStartPosition := psp, synchOffset := 99, prevPos := JsNum.nan, totalFrames := 10, parent := some 0 }

/-- C4 parent: an INDEPENDENT node with the child attached. -/
def c4Parent : Node := { baseNode with children := [1], totalFrames := 20 }

/-- Heap for the C4 scenario: node 0 is the parent, node 1 the child. -/
def c4Store (sp psp : Int) : Store := fun i => if i = 1 then c4Child sp psp else c4Parent

/-- C5 scenario: an INDEPENDENT node with `totalFrames = 5`, previously
resolved at frame 4. -/
def c5Node : Node := { baseNode with totalFrames := 5, prevPos := JsNum.num 4, currentFrame := 4 }

/-- Heap for the C5 scenario. -/
def c5Store : Store := fun _ => c5Node

/-- C9 counterexample parent: a SYNCHED-mode node with an action at frame
0 and `actionsEnabled = false`. -/
def c9CexParent : Node :=
  { baseNode with mode := 2, actions := [some [42]], actionsEnabled := false }

/-- Heap for the C9 counterexample: node 0 is the SYNCHED parent, node 1
an ordinary INDEPENDENT child to be added as a timed child. -/
def c9CexStore : Store := fun i => if i = 1 then baseNode else c9CexParent

/-- C9 witness node: a SINGLE_FRAME node with an action at frame 0. -/
def c9WitNode : Node :=
  { baseNode with mode := 1, actions := [some [7]], prevPos := JsNum.nan, totalFrames := 1 }

/-- Heap for the C9 witness. -/
def c9WitStore : Store := fun _ => c9WitNode

/-- Heap for the C10 witness: a default node with an empty label map. -/
def c10WitStore : Store := fun _ => baseNode

/-!
## Helper lemmas
-/

theorem noActs_nil : noActs [] := by
  intro cb h
  cases h

theorem noActs_append {l1 l2 : List Effect} (h1 : noActs l1) (h2 : noActs l2) :
    noActs (l1 ++ l2) := by
  intro cb h
  cases List.mem_append.mp h with
  | inl h => exact h1 cb h
  | inr h => exact h2 cb h

theorem noActs_cons {e : Effect} {l : List Effect}
    (he : ∀ cb, e ≠ Effect.action cb) (h : noActs l) : noActs (e :: l) := by
  intro cb hm
  cases List.mem_cons.mp hm with
  | inl hh => exact he cb hh.symm
  | inr hh => exact h cb hh

theorem tweenPass_noActs (cf : Int) : ∀ l : List Timeline, noActs (tweenPass cf l) := by
  intro l
  induction l with
  | nil => exact noActs_nil
  | cons tl rest ih =>
    simp only [tweenPass]
    cases h : tl.tweens.find? (fun tw =>
        decide (tw.startFrame ≤ cf) && decide (cf ≤ tw.endFrame)) with
    | none => simpa [h] using ih
    | some tw =>
      simp only [h]
      exact noActs_cons (fun cb => by simp) ih

theorem presencePass_noActs (self : NodeId) (cf : Int) :
    ∀ (l : List TimedChild) (s : Store), noActs (presencePass self cf s l).2 := by
  intro l
  induction l with
  | nil => intro s; exact noActs_nil
  | cons tc rest ih =>
    intro s
    simp only [presencePass]
    split
    · exact noActs_cons (fun cb => by simp) (ih _)
    · split
      · exact noActs_cons (fun cb => by simp) (ih _)
      · exact ih _

theorem updateTimelineWith_noActs
    (stp : Store → NodeId → JsNum → Int → Bool → Store × List Effect)
    (hstp : ∀ s i sf cf, noActs (stp s i sf cf false).2)
    (s : Store) (i : NodeId) (hm : (s i).mode ≠ 0) :
    noActs (updateTimelineWith stp s i).2 := by
  have hb : ((s i).mode == 0) = false := by simpa using hm
  simp only [updateTimelineWith, hb, Bool.not_false, if_true]
  split
  · exact noActs_nil
  · exact hstp _ _ _ _

theorem syncPass_noActs
    (stp : Store → NodeId → JsNum → Int → Bool → Store × List Effect)
    (hstp : ∀ s i sf cf, noActs (stp s i sf cf false).2) (cf : Int) :
    ∀ (l : List NodeId) (s : Store), noActs (syncPass stp cf s l).2 := by
  intro l
  induction l with
  | nil => intro s; exact noActs_nil
  | cons child rest ih =>
    intro s
    simp only [syncPass]
    split
    · rename_i h2
      apply noActs_append
      · apply updateTimelineWith_noActs stp hstp
        simp only [updNode, if_pos rfl]
        simp only [Nat.beq_eq_true_eq] at h2
        simp [h2]
      · exact ih _
    · exact ih _

theorem setTimelinePosition_noActs :
    ∀ (fuel : Nat) (s : Store) (self : NodeId) (sf : JsNum) (cf : Int),
      noActs (setTimelinePosition fuel s self sf cf false).2 := by
  intro fuel
  induction fuel with
  | zero => intro s self sf cf; exact noActs_nil
  | succ n ih =>
    intro s self sf cf
    simp only [setTimelinePosition, Bool.false_eq_true, if_false]
    exact noActs_append (noActs_append (tweenPass_noActs _ _) (presencePass_noActs _ _ _ _))
      (noActs_append (syncPass_noActs _ (fun s i a b => ih s i a b) _ _ _) noActs_nil)

theorem fireLoop_no_wrap (actions : List (Option (List Nat))) (currentFrame : Int) :
    ∀ (gas : Nat) (i len : Int), (len - i).toNat ≤ gas →
      fireLoop actions currentFrame gas i len false =
        actionsInWindow actions i (len - i).toNat := by
  intro gas
  induction gas with
  | zero =>
    intro i len h
    have h0 : (len - i).toNat = 0 := by omega
    rw [h0]
    rfl
  | succ g ih =>
    intro i len h
    by_cases hlt : i < len
    · have h1 : (len - i).toNat = (len - (i + 1)).toNat + 1 := by omega
      rw [h1]
      simp only [fireLoop, if_pos hlt, Bool.false_and, Bool.false_eq_true, if_false,
        actionsInWindow]
      rw [ih (i + 1) len (by omega)]
    · have h0 : (len - i).toNat = 0 := by omega
      rw [h0]
      simp only [fireLoop, if_neg hlt]
      rfl

/-- On a heap whose node `i` owns no tween timelines, no timed children
and no attached children, a positional pass with actions disabled is a
no-op for any recursion fuel. -/
theorem stp_inert (fuel : Nat) (s : Store) (i : NodeId) (sf : JsNum) (cf : Int)
    (h1 : (s i).timelines = []) (h2 : (s i).timedChildren = [])
    (h3 : (s i).children = []) :
    setTimelinePosition fuel s i sf cf false = (s, []) := by
  cases fuel with
  | zero => rfl
  | succ n =>
    simp [setTimelinePosition, h1, h2, h3, tweenPass, presencePass, syncPass]

/-!
## Claim theorems
-/

/-- C1: claim — a looping node with `totalFrames = 5` and actions at
frames 0, 3 and 4, resolving from previous frame 3 to new frame 1 with
actions enabled, fires the actions at frame 4 then at frame 0, each once,
and not frame 3 again.  The code does something else: on a wraparound pass
the wraparound branch's `length = actions.length` is immediately
overwritten by the `for` init clause (`length = Math.min(currentFrame + 1,
actions.length)`), so the loop guard `i < length` is false at once and the
pass fires NO actions at all.  This theorem evaluates the embedded code at
exactly the claimed scenario: the resolution pass emits no effects, in
particular no action fires. -/
theorem c1_wraparound_pass_fires_no_actions :
    (updateTimeline 1 c1Store 0).2 = [] := by decide

/-- C2 counterexample: the claim says the pass fires exactly the action
lists in the half-open interval `(startFrame, newFrame]`, so for a pass
from previous frame 0 to frame 1 with actions at 0 and 1 only the frame-1
action should fire.  The embedded code fires both — the `for` loop starts
at `i = startFrame` inclusively. -/
theorem c2_counterexample_fires_start_frame :
    (updateTimeline 1 c2Store 0).2 = [Effect.action 10, Effect.action 11] ∧
    (updateTimeline 1 c2Store 0).2 ≠ [Effect.action 11] := by decide

/-- C2 amended: in a non-wraparound action pass (`startFrame ≤ newFrame`),
exactly the action lists registered at the frames of the CLOSED interval
`[startFrame, newFrame]` fire (truncated at the end of the actions array),
in ascending frame order — the actions at `startFrame` itself fire again
in that pass. -/
theorem c2_amended_forward_fires_closed_interval
    (actions : List (Option (List Nat))) (sf cf : Int) (h : sf ≤ cf) :
    fireActions actions (JsNum.num sf) cf =
      actionsInWindow actions sf ((min (cf + 1) (actions.length : Int)) - sf).toNat := by
  have hnl : decide (cf < sf) = false := by
    simp only [decide_eq_false_iff_not]
    omega
  simp only [fireActions, hnl]
  exact fireLoop_no_wrap actions cf _ sf _ (by omega)

/-- C2 witness: the amended statement evaluated at `startFrame = 0`,
`newFrame = 1` with actions at frames 0 and 1. -/
theorem c2_amended_witness :
    (0 : Int) ≤ 1 ∧
    fireActions c2WitActs (JsNum.num 0) 1 =
      actionsInWindow c2WitActs 0 ((min ((1 : Int) + 1) (c2WitActs.length : Int)) - 0).toNat :=
  ⟨by decide, c2_amended_forward_fires_closed_interval c2WitActs 0 1 (by decide)⟩

/-- C3: resolving a node whose already-resolved previous frame equals the
frame the pass derives for it (`deriveFrame`) has no observable side
effects: no tween `setPosition`, no child attach/detach, no action — the
effect list is empty — and the heap is unchanged except for the node's
`currentFrame` being (re)written with that same derived frame (for an
INDEPENDENT node even that write does not happen and the value is
unchanged). -/
theorem c3_idempotent_resolution (fuel : Nat) (s : Store) (self : NodeId)
    (h : (s self).prevPos = JsNum.num (deriveFrame (s self))) :
    (updateTimeline fuel s self).2 = [] ∧
    ∀ j, (updateTimeline fuel s self).1 j =
      if j = self then { s self with currentFrame := deriveFrame (s self) } else s j := by
  by_cases hm : (s self).mode = 0
  · have hb : ((s self).mode == 0) = true := by simpa using hm
    have hd : deriveFrame (s self) = (s self).currentFrame := by
      simp [deriveFrame, hb]
    have hcond : (s self).prevPos.eqNum (s self).currentFrame = true := by
      rw [h, hd]
      simp [JsNum.eqNum]
    constructor
    · simp [updateTimeline, updateTimelineWith, hb, hcond]
    · intro j
      by_cases hj : j = self
      · subst hj
        simp [updateTimeline, updateTimelineWith, hb, hcond, hd]
      · simp [updateTimeline, updateTimelineWith, hb, hcond, hj]
  · have hb : ((s self).mode == 0) = false := by simpa using hm
    have hd : deriveFrame (s self) = deriveSynched (s self) := by
      simp [deriveFrame, hb]
    have hcond : (s self).prevPos.eqNum (deriveSynched (s self)) = true := by
      rw [h, hd]
      simp [JsNum.eqNum]
    constructor
    · simp [updateTimeline, updateTimelineWith, hb, hcond, updNode]
    · intro j
      by_cases hj : j = self
      · subst hj
        simp [updateTimeline, updateTimelineWith, hb, hcond, updNode, hd]
      · simp [updateTimeline, updateTimelineWith, hb, hcond, updNode, hj]

/-- C3 witness: the idempotence statement evaluated at an INDEPENDENT node
already resolved at frame 0, re-resolved at frame 0. -/
theorem c3_witness :
    (c3WitStore 0).prevPos = JsNum.num (deriveFrame (c3WitStore 0)) ∧
    (updateTimeline 1 c3WitStore 0).2 = [] ∧
    (updateTimeline 1 c3WitStore 0).1 0 =
      (if (0 : NodeId) = 0 then
        { c3WitStore 0 with currentFrame := deriveFrame (c3WitStore 0) }
      else c3WitStore 0) :=
  ⟨by decide, (c3_idempotent_resolution 1 c3WitStore 0 (by decide)).1,
    (c3_idempotent_resolution 1 c3WitStore 0 (by decide)).2 0⟩

/-- C4 counterexample: the claim says a parent resolving at frame 5 sets
an attached SYNCHED child's `synchronizationOffset` to `5 − startPosition`
(= 3 for the child's own `startPosition = 2`).  The embedded code instead
uses `parentStartPosition` (the frame recorded by `addTimedChild`, here
1), giving offset 4. -/
theorem c4_counterexample_offset_uses_registration_frame :
    ((setTimelinePosition 2 (c4Store 2 1) 0 (JsNum.num 0) 5 false).1 1).synchOffset = 4 ∧
    ((setTimelinePosition 2 (c4Store 2 1) 0 (JsNum.num 0) 5 false).1 1).synchOffset ≠
      5 - (c4Store 2 1 1).startPosition := by decide

/-- C4 amended: during a parent's positional pass at frame `cf`, an
attached SYNCHED child's `synchOffset` is set to `cf` minus the child's
`parentStartPosition` (the frame at which `addTimedChild` registered it —
not the child's own `startPosition`), and the child is then recursively
resolved within the same pass (witnessed by its `_prevPos` being updated
to its newly derived current frame). -/
theorem c4_amended_synchronisation (fuel : Nat) (sp psp cf : Int) :
    ((setTimelinePosition (fuel + 1) (c4Store sp psp) 0 (JsNum.num 0) cf false).1 1).synchOffset = cf - psp ∧
    ((setTimelinePosition (fuel + 1) (c4Store sp psp) 0 (JsNum.num 0) cf false).1 1).prevPos =
      JsNum.num (((setTimelinePosition (fuel + 1) (c4Store sp psp) 0 (JsNum.num 0) cf false).1 1).currentFrame) := by
  simp [setTimelinePosition, tweenPass, presencePass, syncPass, updateTimelineWith,
    updNode, c4Store, c4Child, c4Parent, baseNode, stp_inert, JsNum.eqNum, JsNum.ltZero]

/-- C5: the claim says `gotoAndStop` to a frame index at or beyond
`totalFrames` clamps `currentFrame` back into `[0, totalFrames)`.  The
embedded `_goto` performs no clamping for an INDEPENDENT node: seeking an
INDEPENDENT node with `totalFrames = 5` to frame 7 leaves
`currentFrame = 7`, outside the claimed invariant range. -/
theorem c5_goto_beyond_total_frames_not_clamped :
    ((gotoAndStop 1 c5Store 0 (Sum.inr 7)).1 0).currentFrame = 7 ∧
    ¬ ((gotoAndStop 1 c5Store 0 (Sum.inr 7)).1 0).currentFrame < (c5Store 0).totalFrames := by
  decide

/-- C6 counterexample: the claim says `addAction(callback, startFrame)`
forces `totalFrames ≥ startFrame + 1`.  On a fresh node, registering an
action at frame 0 leaves `totalFrames = 0` (the code raises `_totalFrames`
only to `startFrame`, with no `+ 1`). -/
theorem c6_counterexample_action_at_frame_zero :
    (addAction baseNode 7 0).totalFrames = 0 ∧
    ¬ ((0 : Int) + 1 ≤ (addAction baseNode 7 0).totalFrames) := by decide

/-- C6 amended: after `addAction(callback, startFrame)` the node's
`totalFrames` is at least `startFrame` (it is raised to `startFrame` when
smaller — an action at frame N forces `totalFrames ≥ N`, not `> N`), and
`totalFrames` never decreases. -/
theorem c6_amended_total_frames_at_least_start (n : Node) (cb sf : Nat) :
    (sf : Int) ≤ (addAction n cb sf).totalFrames ∧
    n.totalFrames ≤ (addAction n cb sf).totalFrames := by
  simp only [addAction]
  split <;> constructor <;> omega

/-- C7: the claim (and the source's own comment above the decoder) says
the compact string with lowercase code letters `"0x100y100 10x150"`
decodes to `{0: {x:100, y:100}, 10: {x:150}}`.  The embedded decoder's
`keysMap` recognises only UPPERCASE code letters, so the lowercase string
decodes to the empty map; and even the uppercase rendering
`"0X100Y100 10X150"` loses its final `<code><value>` pair (no `parseValue`
runs at end of input), decoding to `{0: {x:100, y:100}, 10: {}}`. -/
theorem c7_decoder_diverges_from_documented_example :
    deserializeKeyframes "0x100y100 10x150" = [] ∧
    deserializeKeyframes "0X100Y100 10X150" =
      [("0", [("x", KVal.num (some (100, 0))), ("y", KVal.num (some (100, 0)))]), ("10", [])] := by
  decide

/-- C8 counterexample: the claim says a compact keyframe string containing
a code letter outside the recognised alphabet is a hard decode error
surfaced at registration time.  The embedded decoder is a total function
with no error path: `"0X10Z5 "` contains the unrecognised letter `Z`, yet
decodes silently to `{0: {x: 10}}` (the `Z5` tail of the value is simply
discarded by `parseFloat`'s prefix rule). -/
theorem c8_counterexample_silent_decode :
    keysMap 'Z' = none ∧
    deserializeKeyframes "0X10Z5 " = [("0", [("x", KVal.num (some (10, 0)))])] := by decide

/-- C8 amended: unrecognised code letters are not detected: any character
that is neither a recognised (uppercase) code letter nor a space is simply
absorbed into the current buffer by the decode loop, and decoding proceeds
silently — no error is ever raised. -/
theorem c8_amended_unrecognized_letter_absorbed (st : DecState) (c : Char)
    (h1 : keysMap c = none) (h2 : c ≠ ' ') :
    decodeStep st c = { st with buffer := st.buffer.push c } := by
  have hb : (c == ' ') = false := by simpa using h2
  simp [decodeStep, h1, hb]

/-- C8 witness: the amended statement evaluated at the initial decode
state and the unrecognised letter `Z`. -/
theorem c8_amended_witness :
    keysMap 'Z' = none ∧ 'Z' ≠ ' ' ∧
    decodeStep initState 'Z' = { initState with buffer := initState.buffer.push 'Z' } :=
  ⟨by decide, by decide,
    c8_amended_unrecognized_letter_absorbed initState 'Z' (by decide) (by decide)⟩

/-- C9 counterexample: the claim says actions registered on a node whose
mode is not INDEPENDENT never fire.  `addTimedChild`, however, ends with
`_setTimelinePosition(startFrame, currentFrame, true)` — actions
hard-enabled — so registering a timed child on a SYNCHED node (here with
`actionsEnabled = false`, even) fires the node's frame-0 action. -/
theorem c9_counterexample_add_timed_child_fires :
    Effect.action 42 ∈ (addTimedChild 1 c9CexStore 0 1 (some 0) (some 1)).2 := by decide

/-- C9 amended: every resolution pass entered through `_updateTimeline`
(ticks, `advance`, seeks via `_goto`, and parent propagation) runs with
action firing disabled for a node whose mode is not INDEPENDENT, so such a
pass emits no action callback at any depth; the exception is
`addTimedChild`, which invokes the positional pass with actions
force-enabled (see the counterexample). -/
theorem c9_amended_update_timeline_never_fires (fuel : Nat) (s : Store)
    (self : NodeId) (h : (s self).mode ≠ 0) :
    ∀ cb, Effect.action cb ∉ (updateTimeline fuel s self).2 :=
  updateTimelineWith_noActs (setTimelinePosition fuel)
    (fun s i sf cf => setTimelinePosition_noActs fuel s i sf cf) s self h

/-- C9 witness: the amended statement evaluated on a SINGLE_FRAME node
with an action at frame 0. -/
theorem c9_amended_witness :
    (c9WitStore 0).mode ≠ 0 ∧
    Effect.action 7 ∉ (updateTimeline 1 c9WitStore 0).2 :=
  ⟨by decide, c9_amended_update_timeline_never_fires 1 c9WitStore 0 (by decide) 7⟩

/-- C10: `gotoAndStop` and `gotoAndPlay` mutate `paused` unconditionally
before `_goto` resolves the target, and `_goto` returns silently on an
unknown label — so seeking an unknown label leaves `currentFrame` and the
elapsed time `_t` unchanged, yet `paused` has still been set (`true` by
`gotoAndStop`, `false` by `gotoAndPlay`). -/
theorem c10_goto_unknown_label_still_mutates_paused (fuel : Nat) (s : Store)
    (self : NodeId) (lbl : String)
    (h : lookupLabel (s self).labelDict lbl = none) :
    ((gotoAndStop fuel s self (Sum.inl lbl)).1 self).currentFrame = (s self).currentFrame ∧
    ((gotoAndStop fuel s self (Sum.inl lbl)).1 self).t = (s self).t ∧
    ((gotoAndStop fuel s self (Sum.inl lbl)).1 self).paused = true ∧
    ((gotoAndPlay fuel s self (Sum.inl lbl)).1 self).currentFrame = (s self).currentFrame ∧
    ((gotoAndPlay fuel s self (Sum.inl lbl)).1 self).t = (s self).t ∧
    ((gotoAndPlay fuel s self (Sum.inl lbl)).1 self).paused = false := by
  simp [gotoAndStop, gotoAndPlay, goto, updNode, h]

/-- C10 witness: the statement evaluated on a default node with an empty
label map and the unknown label `"missing"`. -/
theorem c10_witness :
    lookupLabel (c10WitStore 0).labelDict "missing" = none ∧
    (((gotoAndStop 1 c10WitStore 0 (Sum.inl "missing")).1 0).currentFrame = (c10WitStore 0).currentFrame ∧
     ((gotoAndStop 1 c10WitStore 0 (Sum.inl "missing")).1 0).t = (c10WitStore 0).t ∧
     ((gotoAndStop 1 c10WitStore 0 (Sum.inl "missing")).1 0).paused = true ∧
     ((gotoAndPlay 1 c10WitStore 0 (Sum.inl "missing")).1 0).currentFrame = (c10WitStore 0).currentFrame ∧
     ((gotoAndPlay 1 c10WitStore 0 (Sum.inl "missing")).1 0).t = (c10WitStore 0).t ∧
     ((gotoAndPlay 1 c10WitStore 0 (Sum.inl "missing")).1 0).paused = false) :=
  ⟨by decide, c10_goto_unknown_label_still_mutates_paused 1 c10WitStore 0 "missing" (by decide)⟩
